import Mathlib

/-!
Verification development for the hotjarclone capture-and-replay engine.

The definitions below are shallow embeddings of the repository's code:

* `public/recording-script.js` — the `RecordingScript` class
  (`recordEvent`, `saveChunk`, `start`, `stop`, `captureFullDomSnapshot`,
  `checkForSignificantChanges`);
* the chunk ingestion route (`generateChunkHash`, `normalizeUrl`, `POST`);
* the replay page (`handleTimelineChange`);
* `ReplayView.tsx` (`transformCoordinates` with its scale/offset computation);
* `DomRenderer.tsx` (`sanitizeHtml`).

JavaScript machine numbers are modelled as `Int`/`Rat` with exact
arithmetic; fallible paths are explicit; the opaque Supabase store is a
record of row lists with the `.single()` convention modelled by
`singleRow`.
-/

namespace HotClone

/-! ### Capture side: `RecordingScript` (public/recording-script.js) -/

/-- One captured event as the recording script buffers it:
`{type, timestamp: Date.now() - this.startTime, data}`.  The payload is
kept opaque; only the type and relative timestamp matter here. -/
structure CapEvent where
  etype : String
  ts : Int
  deriving Repr, DecidableEq

/-- The fields of the `RecordingScript` instance that the buffering and
snapshot logic reads and writes. -/
structure Recorder where
  isRecording : Bool
  startTime : Int
  events : List CapEvent
  lastDomSnapshotTime : Int
  deriving Repr, DecidableEq

/-- Embeds `RecordingScript.recordEvent(type, data)` (lines 315–326): early
return unless recording, push the event with relative timestamp, and
when `this.events.length > 10` call `saveChunk()`, whose `splice`
empties the buffer synchronously.  The returned flag says whether that
flush was triggered. -/
def recordEvent (r : Recorder) (etype : String) (now : Int) :
    Recorder × Bool :=
  if r.isRecording = false then (r, false)
  else
    let evs := r.events ++ [⟨etype, now - r.startTime⟩]
    if 10 < evs.length then ({ r with events := [] }, true)
    else ({ r with events := evs }, false)

/-- Embeds `RecordingScript.captureFullDomSnapshot()` (lines 1226–1257): early
return unless recording, record a `dom_snapshot` event, update
`lastDomSnapshotTime`. -/
def captureFullDomSnapshot (r : Recorder) (now : Int) : Recorder :=
  if r.isRecording = false then r
  else
    let r1 := (recordEvent r "dom_snapshot" now).1
    { r1 with lastDomSnapshotTime := now }

/-- Embeds `RecordingScript.stop()` (lines 199–214): clears `isRecording`
first, then calls `recordEvent("session_end", …)` and
`captureFullDomSnapshot()` (both of which begin with an
`if (!this.isRecording) return` guard). -/
def stop (r : Recorder) (now : Int) : Recorder :=
  if r.isRecording = false then r
  else
    let r1 := { r with isRecording := false }
    let r2 := (recordEvent r1 "session_end" now).1
    captureFullDomSnapshot r2 now

/-- Embeds `RecordingScript.start()` (lines 179–197): set the flag and start
time, capture the initial DOM state (`initial_dom_state` then
`dom_snapshot` events), record `session_start`, then `saveChunk()`
(whose synchronous `splice` empties the live buffer). -/
def start (r : Recorder) (now : Int) : Recorder :=
  if r.isRecording then r
  else
    let r0 := { r with isRecording := true, startTime := now }
    let r1 := (recordEvent r0 "initial_dom_state" now).1
    let r2 := (recordEvent r1 "dom_snapshot" now).1
    let r3 := (recordEvent r2 "session_start" now).1
    { r3 with events := [] }

/-! #### Mutation significance scoring -/

/-- One `MutationRecord` as `checkForSignificantChanges` reads it:
`childList` carries the added/removed node counts, `attributes` the
attribute name, `characterData` nothing. -/
inductive MutationRec where
  | childList (added removed : Nat)
  | attributes (attributeName : String)
  | characterData
  deriving Repr, DecidableEq

/-- The attribute names the script treats as significant. -/
def significantAttrs : List String :=
  ["class", "style", "src", "href", "display"]

/-- The significance score accumulated over a mutation list:
+2 per added node, +2 per removed node, +1 per significant attribute
change, +0.5 per text change (lines 1264–1291). -/
def significanceScore (ms : List MutationRec) : Rat :=
  ms.foldl
    (fun acc m =>
      match m with
      | .childList a r => acc + 2 * a + 2 * r
      | .attributes n => if n ∈ significantAttrs then acc + 1 else acc
      | .characterData => acc + 1/2)
    0

/-- Embeds `RecordingScript.checkForSignificantChanges(mutations)`
(lines 1260–1296), returning whether `captureFullDomSnapshot()` is
called: early return when fewer than 5000 ms have elapsed since the
previous snapshot, otherwise fire exactly when the score reaches 5. -/
def checkForSignificantChanges (now lastDomSnapshotTime : Int)
    (ms : List MutationRec) : Bool :=
  if now - lastDomSnapshotTime < 5000 then false
  else decide (5 ≤ significanceScore ms)

/-! #### Chunk transport: `saveChunk` -/

/-- Outcome of one `fetch` in `saveChunk`: 2xx, a 401, another non-2xx
status, or a thrown transport error. -/
inductive FetchResult where
  | ok
  | status401
  | statusErr
  | netErr
  deriving Repr, DecidableEq

/-- The transport-visible state around one `saveChunk()` call: the live
buffer, the recording flag, and the list of chunk payloads accepted by
the server so far. -/
structure TransportState where
  buffer : List CapEvent
  isRecording : Bool
  delivered : List (List CapEvent)
  deriving Repr, DecidableEq

/-- Embeds `RecordingScript.saveChunk()` (lines 328–403).  `sessionRes` and
`chunkRes` are the outcomes of the session-upsert and chunk `fetch`
calls; `arrivals` are the events recorded during the awaits (they land
in the fresh buffer left behind by the synchronous `splice`).  A 401 on
either call clears `isRecording` and returns without re-queueing; any
other failure throws into the `catch`, which `unshift`s the chunk back
onto the head of the live buffer. -/
def saveChunk (st : TransportState) (sessionRes chunkRes : FetchResult)
    (arrivals : List CapEvent) : TransportState :=
  if st.buffer.isEmpty then
    { st with buffer := st.buffer ++ arrivals }
  else
    let chunk := st.buffer
    match sessionRes with
    | .status401 =>
        { buffer := arrivals, isRecording := false,
          delivered := st.delivered }
    | .statusErr =>
        { st with buffer := chunk ++ arrivals }
    | .netErr =>
        { st with buffer := chunk ++ arrivals }
    | .ok =>
        match chunkRes with
        | .status401 =>
            { buffer := arrivals, isRecording := false,
              delivered := st.delivered }
        | .statusErr =>
            { st with buffer := chunk ++ arrivals }
        | .netErr =>
            { st with buffer := chunk ++ arrivals }
        | .ok =>
            { st with
              buffer := arrivals
              delivered := st.delivered ++ [chunk] }

/-! ### Ingestion boundary: the chunks route (`generateChunkHash`,
`normalizeUrl`, `POST`) -/

/-- One event as the chunks route reads it from the JSON body: the code
touches only `event.type` and `event.data?.timestamp`; everything else
in the payload is opaque and kept as a single `payload` field so that
distinct chunks can be expressed. -/
structure ChunkEvent where
  etype : String
  dataTimestamp : Option String
  payload : String
  deriving Repr, DecidableEq

/-- Embeds `generateChunkHash(sessionId, events)` (route lines 27–43): empty
event lists hash to `""`; otherwise the hash is
`sessionId-eventCount-firstType-lastType-firstTimestamp`, where a
missing (or empty, by JS truthiness) first timestamp contributes `""`. -/
def generateChunkHash (sessionId : String) (events : List ChunkEvent) :
    String :=
  match events with
  | [] => ""
  | e :: rest =>
      let firstEvent := e.etype
      let lastEvent := ((e :: rest).getLast (by simp)).etype
      let eventCount := (e :: rest).length
      let firstTimestamp := e.dataTimestamp.getD ""
      sessionId ++ "-" ++ toString eventCount ++ "-" ++ firstEvent ++
        "-" ++ lastEvent ++ "-" ++ firstTimestamp

/-- Helper for `normalizeUrl`: the characters after the first `://`,
`none` when there is no scheme separator. -/
def afterSchemeSep : List Char → Option (List Char)
  | ':' :: '/' :: '/' :: rest => some rest
  | _ :: rest => afterSchemeSep rest
  | [] => none

/-- Embeds `normalizeUrl(url)` (route lines 17–25).  Modelled WHATWG `URL`
parsing, simplified: the host-and-port part is everything between the
first `://` and the next path/query/fragment delimiter; a string
without `://` fails to parse and is returned unchanged, as in the
`catch` branch.  (Default-port elision and hostname lowercasing of the
real parser are not modelled; no theorem depends on them.) -/
def normalizeUrl (url : String) : String :=
  match afterSchemeSep url.toList with
  | some rest =>
      String.mk (rest.takeWhile (fun c => c ≠ '/' && c ≠ '?' && c ≠ '#'))
  | none => url

/-- Supabase `.single()`: yields a row exactly when the query matched
exactly one row, an error (here `none`) otherwise. -/
def singleRow {α : Type} : List α → Option α
  | [x] => some x
  | _ => none

/-- A row of the `api_keys` table as the route reads it. -/
structure ApiKeyRow where
  key : String
  allowed_url : String
  deriving Repr, DecidableEq

/-- A row of the `sessions` table as the route reads and writes it. -/
structure SessionRow where
  id : String
  url : String
  deriving Repr, DecidableEq

/-- A row of the `session_chunks` table as the route writes it. -/
structure ChunkRow where
  session_id : String
  events : List ChunkEvent
  hash : String
  deriving Repr, DecidableEq

/-- The opaque Supabase store, reduced to the three tables the chunks
route touches. -/
structure Store where
  api_keys : List ApiKeyRow
  sessions : List SessionRow
  session_chunks : List ChunkRow
  deriving Repr, DecidableEq

/-- A `POST /api/sessions/chunks` request: the `x-api-key` header (absent
or present) and the parsed JSON body fields the route reads. -/
structure PostRequest where
  apiKey : Option String
  sessionId : String
  events : List ChunkEvent
  url : String
  deriving Repr, DecidableEq

/-- The responses the chunks route can produce, by status and message. -/
inductive PostResponse where
  | unauthorized (msg : String)
  | badRequest
  | success (msg : String)
  deriving Repr, DecidableEq

/-- The chunks route `POST` handler (route lines 75–201), as a function
from the store and request to the updated store and response, following
the source order exactly: header presence (JS truthiness), body shape,
the empty-events early return, API-key lookup, normalized-URL check,
session existence (created when absent), then fingerprint dedup and
insertion. -/
def POST (store : Store) (req : PostRequest) : Store × PostResponse :=
  match req.apiKey with
  | none => (store, .unauthorized "API key is required")
  | some apiKey =>
    if apiKey = "" then (store, .unauthorized "API key is required")
    else if req.sessionId = "" then (store, .badRequest)
    else if req.events = [] then (store, .success "No events to save")
    else
      match singleRow (store.api_keys.filter (fun k => k.key = apiKey)) with
      | none => (store, .unauthorized "Invalid API key")
      | some apiKeyData =>
        if normalizeUrl apiKeyData.allowed_url ≠ normalizeUrl req.url then
          (store, .unauthorized "URL not allowed for this API key")
        else
          let store1 :=
            match singleRow
                (store.sessions.filter (fun s => s.id = req.sessionId)) with
            | some _ => store
            | none =>
                { store with sessions :=
                    store.sessions ++ [⟨req.sessionId, req.url⟩] }
          let chunkHash := generateChunkHash req.sessionId req.events
          match singleRow
              (store1.session_chunks.filter (fun c => c.hash = chunkHash)) with
          | some _ => (store1, .success "Duplicate chunk skipped")
          | none =>
              ({ store1 with session_chunks :=
                  store1.session_chunks ++
                    [⟨req.sessionId, req.events, chunkHash⟩] },
               .success "")

/-! ### Replay page: `handleTimelineChange` -/

/-- A normalized replay event: `type`, the normalized millisecond
`timestamp`, and the `data` fields the seek handler reads.  `html` and
`url` are strings with `""` standing for an absent/falsy value (as JS
truthiness tests them); `x`/`y` are present exactly when not
`undefined`; `canvasElements` is present exactly when the field exists
(an empty array is present, and truthy). -/
structure NEvent where
  etype : String
  timestamp : Int
  html : String
  canvasElements : Option (List String)
  x : Option Int
  y : Option Int
  url : String
  deriving Repr, DecidableEq

/-- The replay page state that `handleTimelineChange` reads and writes. -/
structure ReplayState where
  currentTime : Int
  isPlaying : Bool
  cursor : Int × Int
  reconstructedDom : String
  canvasSnapshots : List String
  currentUrl : Option String
  deriving Repr, DecidableEq

/-- Embeds `getTotalDuration()`: the timestamp of the last event, 0 when there
are none. -/
def getTotalDuration (events : List NEvent) : Int :=
  match events.getLast? with
  | none => 0
  | some e => e.timestamp

/-- Fold step for `firstOfMaxTs`: keep the current candidate unless the
next element's timestamp is strictly larger. -/
def maxTsStep (acc : Option NEvent) (e : NEvent) : Option NEvent :=
  match acc with
  | none => some e
  | some b => if b.timestamp < e.timestamp then some e else acc

/-- Embeds `[…].filter(pred).sort((a, b) => b.timestamp - a.timestamp)[0]`:
a stable descending sort puts the first-listed element of maximum
timestamp first, so index 0 is the element whose timestamp no later
element exceeds and no earlier element reaches.  A left fold replacing
the candidate only on a strictly larger timestamp computes the same
element. -/
def firstOfMaxTs (l : List NEvent) : Option NEvent :=
  l.foldl maxTsStep none

/-- The dom_snapshot events at or before the target time, in timeline
order (the filter inside `handleTimelineChange`). -/
def snapshotsAtOrBefore (events : List NEvent) (t : Int) : List NEvent :=
  events.filter (fun e => e.etype = "dom_snapshot" && e.timestamp ≤ t)

/-- First statement block of `handleTimelineChange`:
`setCurrentTime(newTime)` plus the stop-at-the-end check. -/
def setTimeStep (events : List NEvent) (newTime : Int)
    (st : ReplayState) : ReplayState :=
  { st with
    currentTime := newTime
    isPlaying :=
      if st.isPlaying ∧ getTotalDuration events ≤ newTime then false
      else st.isPlaying }

/-- Cursor block of `handleTimelineChange`: the last `mousemove`/`click`
at or before the new time moves the cursor when it carries both
coordinates. -/
def cursorStep (events : List NEvent) (newTime : Int)
    (st : ReplayState) : ReplayState :=
  match events.reverse.find?
      (fun e => (e.etype = "mousemove" || e.etype = "click") &&
        e.timestamp ≤ newTime) with
  | some e =>
      match e.x, e.y with
      | some xv, some yv => { st with cursor := (xv, yv) }
      | _, _ => st
  | none => st

/-- DOM block of `handleTimelineChange`: adopt the html (and the canvas
list, when the field is present) of the most recent `dom_snapshot` at
or before the new time, when that html is truthy; otherwise leave the
reconstructed DOM as it is. -/
def domStep (events : List NEvent) (newTime : Int)
    (st : ReplayState) : ReplayState :=
  match firstOfMaxTs (snapshotsAtOrBefore events newTime) with
  | some e =>
      if e.html ≠ "" then
        match e.canvasElements with
        | some cs =>
            { st with reconstructedDom := e.html, canvasSnapshots := cs }
        | none => { st with reconstructedDom := e.html }
      else st
  | none => st

/-- URL block of `handleTimelineChange`: adopt the url of the latest
`session_start` with a truthy url at or before the new time. -/
def urlStep (events : List NEvent) (newTime : Int)
    (st : ReplayState) : ReplayState :=
  match firstOfMaxTs (events.filter
      (fun e => e.etype = "session_start" && e.url ≠ "" &&
        e.timestamp ≤ newTime)) with
  | some e =>
      if e.url ≠ "" then { st with currentUrl := some e.url } else st
  | none => st

/-- Embeds `handleTimelineChange(newTime)` (replay page lines 205–259):
the four statement blocks in source order. -/
def handleTimelineChange (events : List NEvent) (newTime : Int)
    (st : ReplayState) : ReplayState :=
  urlStep events newTime
    (domStep events newTime
      (cursorStep events newTime
        (setTimeStep events newTime st)))

/-! ### `ReplayView.tsx`: scaling and the coordinate transform -/

/-- JavaScript `Math.round`: round half toward positive infinity. -/
def jsRound (q : Rat) : Int := ⌊q + 1/2⌋

/-- Embeds `updateScaleAndPosition` (ReplayView lines 36–73):
`bestScale = Math.min(containerWidth / sessionWidth,
containerHeight / sessionHeight, scale)`. -/
def bestScale (containerWidth containerHeight sessionWidth sessionHeight
    scale : Rat) : Rat :=
  min (min (containerWidth / sessionWidth) (containerHeight / sessionHeight))
    scale

/-- Embeds `leftOffset = Math.max(0, Math.floor((containerWidth - sessionWidth *
bestScale) / 2))`. -/
def leftOffset (containerWidth sessionWidth s : Rat) : Int :=
  max 0 ⌊(containerWidth - sessionWidth * s) / 2⌋

/-- Embeds `topOffset`, symmetric to `leftOffset`. -/
def topOffset (containerHeight sessionHeight s : Rat) : Int :=
  max 0 ⌊(containerHeight - sessionHeight * s) / 2⌋

/-- Embeds `transformCoordinates(x, y)` (ReplayView lines 89–94) with the
computed scale and centering offsets substituted in:
`Math.round(x * computedScale + contentPosition.x)` and likewise for y. -/
def transformCoordinates (containerWidth containerHeight sessionWidth
    sessionHeight scale x y : Rat) : Int × Int :=
  let s := bestScale containerWidth containerHeight sessionWidth
    sessionHeight scale
  (jsRound (x * s + leftOffset containerWidth sessionWidth s),
   jsRound (y * s + topOffset containerHeight sessionHeight s))

/-! ### `DomRenderer.tsx`: `sanitizeHtml`

The sanitizer is three global regex replacements:
`/<script\b[^<]*(?:(?!<\/script>)<[^<]*)*<\/script>/gi`,
`/on\w+="[^"]*"/gi` and the single-quoted variant.  Each pattern is
deterministic (every star ranges over a character class excluded by the
following literal), so each is embedded as a direct matcher returning
the remainder after a leftmost match, and the global replacement as a
left-to-right scan that resumes after each match. -/

/-- The double-quote character. -/
def dq : Char := Char.ofNat 34

/-- The single-quote character. -/
def sq : Char := Char.ofNat 39

/-- JavaScript regex `\w`: ASCII letters, digits and underscore. -/
def isWordChar (c : Char) : Bool := c.isAlphanum || c = '_'

/-- Case-insensitive comparison of a character against a lowercase
pattern character (the `/i` flag, ASCII fold). -/
def ciEq (c pat : Char) : Bool := c.toLower = pat

/-- Whether `l` starts with the lowercase pattern `pat`, compared
case-insensitively. -/
def startsWithCI : List Char → List Char → Bool
  | [], _ => true
  | _ :: _, [] => false
  | p :: ps, c :: cs => ciEq c p && startsWithCI ps cs

/-- Matcher for `on\w+=` followed by a `q`-quoted value `q[^q]*q`: on a
match, returns the input after the closing quote. -/
def matchQuotedHandler (q : Char) : List Char → Option (List Char)
  | c1 :: c2 :: rest =>
      if ciEq c1 'o' && ciEq c2 'n' then
        let run := rest.takeWhile isWordChar
        let afterRun := rest.drop run.length
        if run.length = 0 then none
        else
          match afterRun with
          | '=' :: q0 :: rest4 =>
              if q0 = q then
                let body := rest4.takeWhile (fun c => c ≠ q)
                match rest4.drop body.length with
                | q1 :: rest6 => if q1 = q then some rest6 else none
                | [] => none
              else none
          | _ => none
      else none
  | _ => none

/-- The characters of the closing tag `</script>`. -/
def closeScriptTag : List Char :=
  ['<', '/', 's', 'c', 'r', 'i', 'p', 't', '>']

/-- The tail of the script-element pattern,
`[^<]*(?:(?!<\/script>)<[^<]*)*<\/script>`: repeatedly skip non-`<`
runs; at each `<` either recognize the closing tag (case-insensitively)
or consume the `<` and continue; fail at end of input.  `fuel` bounds
the recursion by the input length. -/
def scriptTail : Nat → List Char → Option (List Char)
  | 0, _ => none
  | fuel + 1, l =>
      match l.dropWhile (fun c => c ≠ '<') with
      | [] => none
      | c :: rest =>
          if startsWithCI closeScriptTag (c :: rest) then
            some ((c :: rest).drop closeScriptTag.length)
          else scriptTail fuel rest

/-- Matcher for the whole script-element pattern
`<script\b[^<]*(?:(?!<\/script>)<[^<]*)*<\/script>` (with `/i`): a
literal `<script`, a word boundary, then `scriptTail`. -/
def matchScriptEl (l : List Char) : Option (List Char) :=
  match l with
  | '<' :: rest =>
      if startsWithCI ['s', 'c', 'r', 'i', 'p', 't'] rest then
        let rest2 := rest.drop 6
        match rest2 with
        | [] => none
        | d :: _ =>
            if isWordChar d then none
            else scriptTail (rest2.length + 1) rest2
      else none
  | _ => none

/-- Global regex replacement by the empty string (`.replace(…/g, "")`):
scan left to right, at each position take a match and resume after it,
or emit the character and move on.  `fuel` bounds the recursion by the
input length (every match consumes at least one character). -/
def replaceScan (m : List Char → Option (List Char)) :
    Nat → List Char → List Char
  | _, [] => []
  | 0, l => l
  | fuel + 1, c :: cs =>
      match m (c :: cs) with
      | some rest => replaceScan m fuel rest
      | none => c :: replaceScan m fuel cs

/-- Embeds `sanitizeHtml(html)` (DomRenderer lines 32–48): empty input
maps to `""`; otherwise strip script elements, then double-quoted
inline handlers, then single-quoted inline handlers. -/
def sanitizeHtml (html : String) : String :=
  if html = "" then ""
  else
    let l0 := html.toList
    let l1 := replaceScan matchScriptEl l0.length l0
    let l2 := replaceScan (matchQuotedHandler dq) l1.length l1
    let l3 := replaceScan (matchQuotedHandler sq) l2.length l2
    String.mk l3

/-! ## Theorems -/

/-- Recording an event never changes the recording flag. -/
theorem recordEvent_fst_isRecording (r : Recorder) (etype : String)
    (now : Int) : (recordEvent r etype now).1.isRecording = r.isRecording := by
  rcases r with ⟨rec, st, evs, last⟩
  cases rec
  · rfl
  · simp only [recordEvent]
    split
    · rfl
    · split <;> rfl

/-- On a recorder that is recording, `stop()` only clears the flag: the
`session_end` and `dom_snapshot` emissions are dead because the flag is
cleared before their guards run. -/
theorem stop_eq_clear_flag (r : Recorder) (now : Int)
    (h : r.isRecording = true) :
    stop r now = { r with isRecording := false } := by
  simp [stop, recordEvent, captureFullDomSnapshot, h]

/-- C1: the claim says `stop()` emits a closing full DOM snapshot and a
`session_end` event before returning.  The code does not: `stop()`
clears `isRecording` before calling `recordEvent("session_end", …)` and
`captureFullDomSnapshot()`, and both begin with
`if (!this.isRecording) return`, so on every started recorder the
accumulated event log at the moment `stop()` returns is exactly the log
before the call — no `session_end` and no `dom_snapshot` is appended. -/
theorem stop_appends_no_event (r : Recorder) (now now' : Int) :
    (start r now).isRecording = true ∧
    (stop (start r now) now').events = (start r now).events ∧
    (stop (start r now) now').isRecording = false := by
  have hrec : (start r now).isRecording = true := by
    rcases r with ⟨rec, st, evs, last⟩
    cases rec <;> simp [start, recordEvent_fst_isRecording]
  rw [stop_eq_clear_flag _ _ hrec]
  exact ⟨hrec, rfl, rfl⟩

/-- C5: with the score being +2 per added node, +2 per removed node,
+1 per significant-attribute change and +0.5 per text change, and at
least 5000 ms elapsed since the previous snapshot, a batch scoring 5
fires a snapshot and a batch scoring 4 does not; with less than 5000 ms
elapsed no score-based snapshot fires. -/
theorem checkForSignificantChanges_threshold (now last : Int)
    (ms : List MutationRec) :
    (now - last < 5000 → checkForSignificantChanges now last ms = false) ∧
    (5000 ≤ now - last →
      (checkForSignificantChanges now last ms = true ↔
        5 ≤ significanceScore ms)) ∧
    (5000 ≤ now - last → significanceScore ms = 5 →
      checkForSignificantChanges now last ms = true) ∧
    (significanceScore ms = 4 →
      checkForSignificantChanges now last ms = false) := by
  refine ⟨fun h => ?_, fun h => ?_, fun h h5 => ?_, fun h4 => ?_⟩
  · simp [checkForSignificantChanges, h]
  · rw [checkForSignificantChanges, if_neg (by omega)]
    simp
  · rw [checkForSignificantChanges, if_neg (by omega)]
    simp [h5]
  · rw [checkForSignificantChanges]
    split
    · rfl
    · simp only [decide_eq_false_iff_not, h4]
      norm_num

/-- Witness for `checkForSignificantChanges_threshold` at a concrete
elapsed time and concrete batches scoring 5 and 4. -/
theorem checkForSignificantChanges_threshold_witness :
    (5000 ≤ (6000 : Int) - 0 ∧
      significanceScore [.childList 1 1, .attributes "style"] = 5 ∧
      checkForSignificantChanges 6000 0
        [.childList 1 1, .attributes "style"] = true) ∧
    (significanceScore [.childList 1 1] = 4 ∧
      checkForSignificantChanges 6000 0 [.childList 1 1] = false) ∧
    ((4999 : Int) - 0 < 5000 ∧
      checkForSignificantChanges 4999 0
        [.childList 1 1, .attributes "style"] = false) := by
  have h5 : significanceScore
      [MutationRec.childList 1 1, MutationRec.attributes "style"] = 5 := by
    norm_num [significanceScore, significantAttrs]
  have h4 : significanceScore [MutationRec.childList 1 1] = 4 := by
    norm_num [significanceScore]
  refine ⟨⟨by norm_num, h5, ?_⟩, ⟨h4, ?_⟩, ⟨by norm_num, ?_⟩⟩
  · exact (checkForSignificantChanges_threshold 6000 0 _).2.2.1
      (by norm_num) h5
  · exact (checkForSignificantChanges_threshold 6000 0 _).2.2.2 h4
  · exact (checkForSignificantChanges_threshold 4999 0 _).1 (by norm_num)

/-- Fixed recorder with a nine-event buffer, used to refute C6 as
stated. -/
def recorderWith9 : Recorder :=
  ⟨true, 0, List.replicate 9 ⟨"mousemove", 0⟩, 0⟩

/-- C6 counterexample: recording an event that brings the buffer to
exactly 10 events does not trigger a flush — the code flushes only when
`this.events.length > 10`, so a 9-event buffer grows to 10 with no
flush, contradicting the claim that reaching 10 forces a flush. -/
theorem recordEvent_no_flush_at_ten :
    (recordEvent recorderWith9 "click" 100).1.events.length = 10 ∧
    (recordEvent recorderWith9 "click" 100).2 = false := by
  decide

/-- C6 amended: the buffer force-flushes when recording an event brings
it past 10 events (that is, at 11): a flush is triggered exactly when
the recorder is recording and the buffer already held 10 events, and
immediately after `recordEvent` returns the buffer never holds more
than 10 events. -/
theorem recordEvent_flush_past_ten (r : Recorder) (etype : String)
    (now : Int) (h : r.events.length ≤ 10) :
    (recordEvent r etype now).1.events.length ≤ 10 ∧
    ((recordEvent r etype now).2 = true ↔
      r.isRecording = true ∧ r.events.length = 10) := by
  rcases r with ⟨rec, st, evs, last⟩
  cases rec
  · simpa [recordEvent] using h
  · by_cases h10 : 10 < evs.length + 1
    · have h10' : evs.length = 10 := by
        simp only [Recorder.events] at h
        omega
      simp [recordEvent, h10, h10']
    · simp only [Recorder.events] at h
      simp [recordEvent, h10]
      omega

/-- Witness for `recordEvent_flush_past_ten` on a recorder holding
exactly 10 events: the next recorded event triggers the flush. -/
theorem recordEvent_flush_past_ten_witness :
    (⟨true, 0, List.replicate 10 ⟨"scroll", 0⟩, 0⟩ : Recorder).events.length
        ≤ 10 ∧
    ((recordEvent ⟨true, 0, List.replicate 10 ⟨"scroll", 0⟩, 0⟩ "click"
        7).1.events.length ≤ 10 ∧
      ((recordEvent ⟨true, 0, List.replicate 10 ⟨"scroll", 0⟩, 0⟩ "click"
          7).2 = true ↔
        (⟨true, 0, List.replicate 10 ⟨"scroll", 0⟩, 0⟩ :
            Recorder).isRecording = true ∧
        (⟨true, 0, List.replicate 10 ⟨"scroll", 0⟩, 0⟩ :
            Recorder).events.length = 10)) :=
  ⟨by decide,
   recordEvent_flush_past_ten ⟨true, 0, List.replicate 10 ⟨"scroll", 0⟩, 0⟩
     "click" 7 (by decide)⟩

/-- C7: on a flush with a nonempty buffer, the buffer is swapped out
atomically — on success the chunk is delivered exactly once and the
live buffer holds exactly the events recorded during the flush; on a
transport error or non-2xx status other than 401 (on either call) the
whole chunk is re-queued at the head of the live buffer, nothing is
delivered, and recording continues; a 401 on either call disables
recording and re-queues nothing. -/
theorem saveChunk_delivery_contract (st : TransportState)
    (arrivals : List CapEvent) (h : st.buffer ≠ []) :
    ((saveChunk st .ok .ok arrivals).buffer = arrivals ∧
      (saveChunk st .ok .ok arrivals).delivered =
        st.delivered ++ [st.buffer] ∧
      (saveChunk st .ok .ok arrivals).isRecording = st.isRecording) ∧
    (∀ sr cr : FetchResult,
      sr = .statusErr ∨ sr = .netErr ∨
          (sr = .ok ∧ (cr = .statusErr ∨ cr = .netErr)) →
      (saveChunk st sr cr arrivals).buffer = st.buffer ++ arrivals ∧
      (saveChunk st sr cr arrivals).delivered = st.delivered ∧
      (saveChunk st sr cr arrivals).isRecording = st.isRecording) ∧
    (∀ sr cr : FetchResult,
      sr = .status401 ∨ (sr = .ok ∧ cr = .status401) →
      (saveChunk st sr cr arrivals).isRecording = false ∧
      (saveChunk st sr cr arrivals).buffer = arrivals ∧
      (saveChunk st sr cr arrivals).delivered = st.delivered) := by
  rcases st with ⟨buf, rec, del⟩
  rcases buf with _ | ⟨e, es⟩
  · exact absurd rfl h
  refine ⟨by simp [saveChunk], ?_, ?_⟩
  · rintro sr cr (rfl | rfl | ⟨rfl, rfl | rfl⟩) <;> simp [saveChunk]
  · rintro sr cr (rfl | ⟨rfl, rfl⟩) <;> simp [saveChunk]

/-- Witness for `saveChunk_delivery_contract` on a one-event buffer with
one event arriving mid-flush. -/
theorem saveChunk_delivery_contract_witness :
    (⟨[⟨"click", 1⟩], true, []⟩ : TransportState).buffer ≠ [] ∧
    (saveChunk ⟨[⟨"click", 1⟩], true, []⟩ .ok .ok
        [⟨"scroll", 2⟩]).buffer = [⟨"scroll", 2⟩] ∧
    (saveChunk ⟨[⟨"click", 1⟩], true, []⟩ .statusErr .ok
        [⟨"scroll", 2⟩]).buffer = [⟨"click", 1⟩, ⟨"scroll", 2⟩] ∧
    (saveChunk ⟨[⟨"click", 1⟩], true, []⟩ .status401 .ok
        [⟨"scroll", 2⟩]).isRecording = false := by
  have h := saveChunk_delivery_contract ⟨[⟨"click", 1⟩], true, []⟩
    [⟨"scroll", 2⟩] (by decide)
  exact ⟨by decide, h.1.1,
    (h.2.1 .statusErr .ok (Or.inl rfl)).1,
    (h.2.2 .status401 .ok (Or.inl rfl)).1⟩

/-- C10: an empty-events chunk submission returns success and stores
nothing, and the early return fires before the API key is looked up in
the key store and before the URL check — the statement holds for every
store and every non-empty `x-api-key` header value, including keys the
store does not contain. -/
theorem POST_empty_events_early_return (store : Store) (req : PostRequest)
    (k : String) (hk : req.apiKey = some k) (hk0 : ¬(k = ""))
    (hsid : ¬(req.sessionId = "")) (hev : req.events = []) :
    POST store req = (store, .success "No events to save") := by
  simp [POST, hk, hk0, hsid, hev]

/-- Witness for `POST_empty_events_early_return`: a store with no API
keys at all still answers success to an empty chunk carrying a bogus
key. -/
theorem POST_empty_events_early_return_witness :
    (⟨some "bogus", "sess1", [], "http://nowhere.test"⟩ :
        PostRequest).apiKey = some "bogus" ∧
    ¬(("bogus" : String) = "") ∧
    POST ⟨[], [], []⟩ ⟨some "bogus", "sess1", [], "http://nowhere.test"⟩ =
      (⟨[], [], []⟩, .success "No events to save") :=
  ⟨rfl, by decide,
   POST_empty_events_early_return ⟨[], [], []⟩
     ⟨some "bogus", "sess1", [], "http://nowhere.test"⟩ "bogus" rfl
     (by decide) (by decide) rfl⟩

/-- Computation rule: `singleRow` on no rows errors. -/
theorem singleRow_nil {α : Type} : singleRow ([] : List α) = none := rfl

/-- Computation rule: `singleRow` on exactly one row yields it. -/
theorem singleRow_singleton {α : Type} (a : α) : singleRow [a] = some a :=
  rfl

/-- Computation rule: `singleRow` on two or more rows errors. -/
theorem singleRow_cons_cons {α : Type} (a b : α) (t : List α) :
    singleRow (a :: b :: t) = none := rfl

/-- C3: chunk ingestion is idempotent.  Submitting a well-formed,
authorized chunk to a store not yet holding its fingerprint stores it
once; submitting the identical payload again computes the same
fingerprint, hits the dedup lookup, is a no-op on the store, and still
returns success. -/
theorem POST_idempotent (s0 : Store) (req : PostRequest) (k : String)
    (hk : req.apiKey = some k) (hk0 : ¬(k = ""))
    (hsid : ¬(req.sessionId = "")) (hev : ¬(req.events = []))
    (hkey : ∃ row, singleRow (s0.api_keys.filter (fun a => a.key = k)) =
        some row ∧ normalizeUrl row.allowed_url = normalizeUrl req.url)
    (hsess : (s0.sessions.filter (fun x => x.id = req.sessionId)).length ≤ 1)
    (hchunk : s0.session_chunks.filter
      (fun c => c.hash = generateChunkHash req.sessionId req.events) = []) :
    (POST s0 req).2 = .success "" ∧
    POST (POST s0 req).1 req =
      ((POST s0 req).1, .success "Duplicate chunk skipped") ∧
    ((POST s0 req).1.session_chunks.filter
      (fun c => c.hash = generateChunkHash req.sessionId req.events)).length
      = 1 := by
  obtain ⟨row, hrow, hurl⟩ := hkey
  rcases hfs : singleRow (s0.sessions.filter (fun x => x.id = req.sessionId))
    with _ | srow
  · have hfil : s0.sessions.filter (fun x => x.id = req.sessionId) = [] := by
      rcases hflt : s0.sessions.filter (fun x => x.id = req.sessionId)
        with _ | ⟨a, t⟩
      · exact hflt
      · rcases t with _ | ⟨b, t2⟩
        · rw [hflt, singleRow_singleton] at hfs
          exact absurd hfs (by simp)
        · rw [hflt] at hsess
          simp at hsess
    have h1 : POST s0 req =
        ({ s0 with
            sessions := s0.sessions ++ [⟨req.sessionId, req.url⟩],
            session_chunks := s0.session_chunks ++
              [⟨req.sessionId, req.events,
                generateChunkHash req.sessionId req.events⟩] },
          .success "") := by
      simp [POST, hk, hk0, hsid, hev, hrow, hurl, hfs, hchunk, singleRow_nil]
    rw [h1]
    refine ⟨rfl, ?_, ?_⟩
    · simp [POST, hk, hk0, hsid, hev, hrow, hurl, singleRow_singleton,
        List.filter_append, hfil, hchunk]
    · simp [List.filter_append, hchunk]
  · have h1 : POST s0 req =
        ({ s0 with
            session_chunks := s0.session_chunks ++
              [⟨req.sessionId, req.events,
                generateChunkHash req.sessionId req.events⟩] },
          .success "") := by
      simp [POST, hk, hk0, hsid, hev, hrow, hurl, hfs, hchunk, singleRow_nil]
    rw [h1]
    refine ⟨rfl, ?_, ?_⟩
    · simp [POST, hk, hk0, hsid, hev, hrow, hurl, hfs, singleRow_singleton,
        List.filter_append, hchunk]
    · simp [List.filter_append, hchunk]

/-- Witness for `POST_idempotent`: a concrete authorized request against
a one-key store, submitted twice. -/
theorem POST_idempotent_witness :
    (⟨some "key1", "sess1", [⟨"session_start", some "T0", "p"⟩],
        "http://site.test/page"⟩ : PostRequest).apiKey = some "key1" ∧
    (POST (⟨[⟨"key1", "http://site.test"⟩], [], []⟩ : Store)
        ⟨some "key1", "sess1", [⟨"session_start", some "T0", "p"⟩],
          "http://site.test/page"⟩).2 = .success "" ∧
    POST (POST (⟨[⟨"key1", "http://site.test"⟩], [], []⟩ : Store)
          ⟨some "key1", "sess1", [⟨"session_start", some "T0", "p"⟩],
            "http://site.test/page"⟩).1
        ⟨some "key1", "sess1", [⟨"session_start", some "T0", "p"⟩],
          "http://site.test/page"⟩ =
      ((POST (⟨[⟨"key1", "http://site.test"⟩], [], []⟩ : Store)
          ⟨some "key1", "sess1", [⟨"session_start", some "T0", "p"⟩],
            "http://site.test/page"⟩).1,
        .success "Duplicate chunk skipped") := by
  have h := POST_idempotent ⟨[⟨"key1", "http://site.test"⟩], [], []⟩
    ⟨some "key1", "sess1", [⟨"session_start", some "T0", "p"⟩],
      "http://site.test/page"⟩ "key1" rfl (by decide) (by decide)
    (by decide) ⟨⟨"key1", "http://site.test"⟩, by decide, by decide⟩
    (by decide) (by decide)
  exact ⟨rfl, h.1, h.2.1⟩

/-- First chunk payload for the fingerprint collision: two events whose
first carries payload `x=1`. -/
def chunkA : List ChunkEvent :=
  [⟨"click", some "T0", "x=1"⟩, ⟨"scroll", none, "y=2"⟩]

/-- Second chunk payload: genuinely different events (the first click's
payload differs), same length, same first/last types, same first
timestamp. -/
def chunkB : List ChunkEvent :=
  [⟨"click", some "T0", "x=9"⟩, ⟨"scroll", none, "y=2"⟩]

/-- A one-key store for the collision scenario. -/
def collisionStore : Store := ⟨[⟨"key1", "http://site.test"⟩], [], []⟩

/-- The submission of `chunkA`. -/
def collisionReqA : PostRequest :=
  ⟨some "key1", "sess1", chunkA, "http://site.test"⟩

/-- The submission of `chunkB`. -/
def collisionReqB : PostRequest :=
  ⟨some "key1", "sess1", chunkB, "http://site.test"⟩

/-- C4: the chunk fingerprint is not injective on chunk contents: the
genuinely distinct payloads `chunkA` and `chunkB` (same session, same
event count, same first/last types, same first timestamp, different
event payloads) collide, so after `chunkA` is stored the submission of
`chunkB` is treated as a duplicate: the store is unchanged, the
response claims success, and only `chunkA`'s events are ever stored —
silent data loss. -/
theorem generateChunkHash_collision_drops_chunk :
    chunkA ≠ chunkB ∧
    generateChunkHash "sess1" chunkA = generateChunkHash "sess1" chunkB ∧
    (POST (POST collisionStore collisionReqA).1 collisionReqB).1 =
      (POST collisionStore collisionReqA).1 ∧
    (POST (POST collisionStore collisionReqA).1 collisionReqB).2 =
      .success "Duplicate chunk skipped" ∧
    (POST collisionStore collisionReqA).1.session_chunks.map
      (fun c => c.events) = [chunkA] := by
  decide

/-! ### Lemmas about `firstOfMaxTs` and the seek steps -/

/-- Once the fold of `firstOfMaxTs` holds a candidate it never loses
it. -/
theorem foldl_maxTsStep_ne_none (l : List NEvent) (b : NEvent) :
    l.foldl maxTsStep (some b) ≠ none := by
  induction l generalizing b with
  | nil => simp
  | cons a t ih =>
      simp only [List.foldl_cons]
      by_cases h : b.timestamp < a.timestamp
      · simpa [maxTsStep, h] using ih a
      · simpa [maxTsStep, h] using ih b

/-- A nonempty list always yields a candidate. -/
theorem firstOfMaxTs_isSome (l : List NEvent) (h : l ≠ []) :
    ∃ e, firstOfMaxTs l = some e := by
  rcases l with _ | ⟨a, t⟩
  · exact absurd rfl h
  · rcases hf : t.foldl maxTsStep (some a) with _ | e
    · exact absurd hf (foldl_maxTsStep_ne_none t a)
    · exact ⟨e, by simpa [firstOfMaxTs, maxTsStep] using hf⟩

/-- The candidate produced by the fold is a list element, unless it was
already the accumulator. -/
theorem foldl_maxTsStep_mem (l : List NEvent) :
    ∀ (acc : Option NEvent) (e : NEvent),
      l.foldl maxTsStep acc = some e → e ∈ l ∨ acc = some e := by
  induction l with
  | nil =>
      intro acc e h
      right
      simpa using h
  | cons a t ih =>
      intro acc e h
      simp only [List.foldl_cons] at h
      rcases ih (maxTsStep acc a) e h with hm | he
      · exact Or.inl (List.mem_cons_of_mem _ hm)
      · rcases acc with _ | b
        · left
          have ha : some a = some e := he
          have : a = e := by injection ha
          exact this ▸ List.mem_cons_self a t
        · by_cases hlt : b.timestamp < a.timestamp
          · left
            have ha : some a = some e := by
              simpa [maxTsStep, hlt] using he
            have : a = e := by injection ha
            exact this ▸ List.mem_cons_self a t
          · right
            simpa [maxTsStep, hlt] using he

/-- The candidate's timestamp bounds every list element's timestamp
(and the accumulator's, when present). -/
theorem foldl_maxTsStep_le (l : List NEvent) :
    ∀ (acc : Option NEvent) (e : NEvent),
      l.foldl maxTsStep acc = some e →
      (∀ x ∈ l, x.timestamp ≤ e.timestamp) ∧
      (∀ b, acc = some b → b.timestamp ≤ e.timestamp) := by
  induction l with
  | nil =>
      intro acc e h
      refine ⟨by simp, fun b hb => ?_⟩
      simp only [List.foldl_nil] at h
      rw [hb] at h
      have : b = e := by injection h
      rw [this]
  | cons a t ih =>
      intro acc e h
      simp only [List.foldl_cons] at h
      obtain ⟨ht, hacc⟩ := ih (maxTsStep acc a) e h
      have ha : a.timestamp ≤ e.timestamp := by
        rcases acc with _ | b
        · exact hacc a rfl
        · by_cases hlt : b.timestamp < a.timestamp
          · exact hacc a (by simp [maxTsStep, hlt])
          · have hb := hacc b (by simp [maxTsStep, hlt])
            omega
      refine ⟨?_, ?_⟩
      · intro x hx
        rcases List.mem_cons.mp hx with rfl | hx
        · exact ha
        · exact ht x hx
      · intro b hb
        subst hb
        by_cases hlt : b.timestamp < a.timestamp
        · have := hacc a (by simp [maxTsStep, hlt])
          omega
        · exact hacc b (by simp [maxTsStep, hlt])

/-- Membership form of the fold lemma for `firstOfMaxTs`. -/
theorem firstOfMaxTs_mem (l : List NEvent) (e : NEvent)
    (h : firstOfMaxTs l = some e) : e ∈ l := by
  rcases foldl_maxTsStep_mem l none e h with hm | he
  · exact hm
  · exact absurd he (by simp)

/-- Maximality form of the fold lemma for `firstOfMaxTs`. -/
theorem firstOfMaxTs_le (l : List NEvent) (e : NEvent)
    (h : firstOfMaxTs l = some e) :
    ∀ x ∈ l, x.timestamp ≤ e.timestamp :=
  (foldl_maxTsStep_le l none e h).1

/-- Setting the time leaves the reconstructed DOM alone. -/
theorem setTimeStep_dom (events : List NEvent) (t : Int)
    (st : ReplayState) :
    (setTimeStep events t st).reconstructedDom = st.reconstructedDom := rfl

/-- The cursor block leaves the reconstructed DOM alone. -/
theorem cursorStep_dom (events : List NEvent) (t : Int)
    (st : ReplayState) :
    (cursorStep events t st).reconstructedDom = st.reconstructedDom := by
  unfold cursorStep
  split
  · split <;> rfl
  · rfl

/-- The url block leaves the reconstructed DOM alone. -/
theorem urlStep_dom (events : List NEvent) (t : Int) (st : ReplayState) :
    (urlStep events t st).reconstructedDom = st.reconstructedDom := by
  unfold urlStep
  split
  · split <;> rfl
  · rfl

/-- Without a qualifying snapshot the DOM block is the identity. -/
theorem domStep_of_none (events : List NEvent) (t : Int)
    (st : ReplayState)
    (h : firstOfMaxTs (snapshotsAtOrBefore events t) = none) :
    domStep events t st = st := by
  unfold domStep
  rw [h]

/-- With a qualifying snapshot whose html is truthy, the DOM block
adopts that html. -/
theorem domStep_of_some (events : List NEvent) (t : Int)
    (st : ReplayState) (e : NEvent)
    (h : firstOfMaxTs (snapshotsAtOrBefore events t) = some e)
    (hh : e.html ≠ "") :
    (domStep events t st).reconstructedDom = e.html := by
  unfold domStep
  rw [h]
  simp only [hh]
  rw [if_pos (by simp [hh])]
  split <;> rfl

/-- The claim's end-to-end event list: `session_start@0`,
`dom_snapshot@0` with html `A`, `click@1200` at (50, 80),
`dom_snapshot@3000` with html `B`. -/
def seekExampleEvents : List NEvent :=
  [⟨"session_start", 0, "", none, none, none, "http://site.test/"⟩,
   ⟨"dom_snapshot", 0, "A", some [], none, none, ""⟩,
   ⟨"click", 1200, "", none, some 50, some 80, ""⟩,
   ⟨"dom_snapshot", 3000, "B", some [], none, none, ""⟩]

/-- An event list whose first snapshot is at t=1000, used to refute the
fallback clause of the seek claim. -/
def seekLateSnapshotEvents : List NEvent :=
  [⟨"session_start", 0, "", none, none, none, "http://site.test/"⟩,
   ⟨"dom_snapshot", 1000, "A", some [], none, none, ""⟩,
   ⟨"dom_snapshot", 3000, "B", some [], none, none, ""⟩]

/-- The replay state right after loading `seekLateSnapshotEvents`: the
page initializes `reconstructedDom` from the first `dom_snapshot`
(html `A`). -/
def loadedState : ReplayState := ⟨0, false, (0, 0), "A", [], none⟩

/-- C2 counterexample: after seeking to 3500 (DOM baseline `B`), a seek
to 500 finds no `dom_snapshot` with timestamp ≤ 500; the claim says the
handler falls back to the session's first snapshot (`A`), but the code
leaves the DOM baseline unchanged, so it stays `B`. -/
theorem handleTimelineChange_no_first_snapshot_fallback :
    snapshotsAtOrBefore seekLateSnapshotEvents 500 = [] ∧
    (seekLateSnapshotEvents.filter
      (fun e => e.etype = "dom_snapshot")).map (fun e => e.html) =
      ["A", "B"] ∧
    (handleTimelineChange seekLateSnapshotEvents 500
      (handleTimelineChange seekLateSnapshotEvents 3500
        loadedState)).reconstructedDom = "B" ∧
    ("B" : String) ≠ "A" := by
  decide

/-- C2 amended: seeking to T adopts as the DOM baseline the
`dom_snapshot` with the maximum timestamp ≤ T (the earliest-listed one
on ties, given a truthy html); when no `dom_snapshot` has timestamp
≤ T, the DOM baseline is left unchanged (it shows the session's first
snapshot only as long as that is what was already displayed, e.g. right
after load).  The claim's end-to-end example holds: from any state,
`seek(2000)` yields DOM=A with cursor (50, 80), and `seek(3500)` yields
DOM=B. -/
theorem handleTimelineChange_seek_semantics (events : List NEvent)
    (T : Int) (st : ReplayState) :
    (snapshotsAtOrBefore events T = [] →
      (handleTimelineChange events T st).reconstructedDom =
        st.reconstructedDom) ∧
    (snapshotsAtOrBefore events T ≠ [] →
      ∃ e, firstOfMaxTs (snapshotsAtOrBefore events T) = some e ∧
        e ∈ events ∧ e.etype = "dom_snapshot" ∧ e.timestamp ≤ T ∧
        (∀ x ∈ events, x.etype = "dom_snapshot" → x.timestamp ≤ T →
          x.timestamp ≤ e.timestamp) ∧
        (e.html ≠ "" →
          (handleTimelineChange events T st).reconstructedDom = e.html)) ∧
    ((handleTimelineChange seekExampleEvents 2000 st).reconstructedDom =
        "A" ∧
      (handleTimelineChange seekExampleEvents 2000 st).cursor = (50, 80) ∧
      (handleTimelineChange seekExampleEvents 3500 st).reconstructedDom =
        "B") := by
  refine ⟨fun h => ?_, fun h => ?_, ?_, ?_, ?_⟩
  · have hn : firstOfMaxTs (snapshotsAtOrBefore events T) = none := by
      rw [h]
      rfl
    unfold handleTimelineChange
    rw [urlStep_dom, domStep_of_none _ _ _ hn, cursorStep_dom,
      setTimeStep_dom]
  · obtain ⟨e, he⟩ := firstOfMaxTs_isSome _ h
    have hmem := firstOfMaxTs_mem _ _ he
    have hmem' := List.mem_filter.mp hmem
    have hpred := hmem'.2
    simp only [Bool.and_eq_true, decide_eq_true_eq] at hpred
    refine ⟨e, he, hmem'.1, hpred.1, hpred.2, ?_, fun hh => ?_⟩
    · intro x hx hxt hxle
      exact firstOfMaxTs_le _ _ he x
        (List.mem_filter.mpr ⟨hx, by simp [hxt, hxle]⟩)
    · unfold handleTimelineChange
      rw [urlStep_dom, domStep_of_some _ _ _ _ he hh]
  · rfl
  · rfl
  · rfl

/-- Witness for `handleTimelineChange_seek_semantics`: the unchanged
branch at T=500 on `seekLateSnapshotEvents` and the adopted branch at
T=2000 on the example events. -/
theorem handleTimelineChange_seek_semantics_witness :
    snapshotsAtOrBefore seekLateSnapshotEvents 500 = [] ∧
    (handleTimelineChange seekLateSnapshotEvents 500
        loadedState).reconstructedDom = loadedState.reconstructedDom ∧
    snapshotsAtOrBefore seekExampleEvents 2000 ≠ [] ∧
    (∃ e, firstOfMaxTs (snapshotsAtOrBefore seekExampleEvents 2000) =
        some e ∧
      e ∈ seekExampleEvents ∧ e.etype = "dom_snapshot" ∧
      e.timestamp ≤ 2000 ∧
      (∀ x ∈ seekExampleEvents, x.etype = "dom_snapshot" →
        x.timestamp ≤ 2000 → x.timestamp ≤ e.timestamp) ∧
      (e.html ≠ "" →
        (handleTimelineChange seekExampleEvents 2000
          loadedState).reconstructedDom = e.html)) :=
  ⟨by decide,
   (handleTimelineChange_seek_semantics seekLateSnapshotEvents 500
       loadedState).1 (by decide),
   by decide,
   (handleTimelineChange_seek_semantics seekExampleEvents 2000
       loadedState).2.1 (by decide)⟩

/-! ### Transform bounds (ReplayView) -/

/-- Rounding preserves an integer upper bound. -/
theorem jsRound_le_of_le (q : Rat) (n : Int) (h : q ≤ (n : Rat)) :
    jsRound q ≤ n := by
  unfold jsRound
  have h12 : ⌊(1 / 2 : Rat)⌋ = 0 := by
    rw [Int.floor_eq_zero_iff]
    constructor <;> norm_num
  have hmono : ⌊q + 1 / 2⌋ ≤ ⌊(n : Rat) + 1 / 2⌋ :=
    Int.floor_le_floor (by linarith)
  calc ⌊q + 1 / 2⌋ ≤ ⌊(n : Rat) + 1 / 2⌋ := hmono
    _ = n + ⌊(1 / 2 : Rat)⌋ := Int.floor_int_add n (1 / 2)
    _ = n := by rw [h12, add_zero]

/-- Rounding preserves nonnegativity. -/
theorem jsRound_nonneg (q : Rat) (h : 0 ≤ q) : 0 ≤ jsRound q := by
  unfold jsRound
  refine Int.le_floor.mpr ?_
  push_cast
  linarith

/-- One axis of the transform bound: with a nonnegative scale whose
scaled session extent fits in the (integer) container extent, every
in-viewport coordinate maps into `[0, container]`. -/
theorem transform_axis_bounds (cw : Nat) (vwQ sc x : Rat)
    (hsc0 : 0 ≤ sc) (hfit : vwQ * sc ≤ (cw : Rat))
    (hx0 : 0 ≤ x) (hx1 : x ≤ vwQ) :
    0 ≤ jsRound (x * sc + (leftOffset (cw : Rat) vwQ sc : Int)) ∧
    jsRound (x * sc + (leftOffset (cw : Rat) vwQ sc : Int)) ≤ (cw : Int) := by
  have ht0 : (0 : Rat) ≤ ((cw : Rat) - vwQ * sc) / 2 := by linarith
  have hoff0 : (0 : Int) ≤ leftOffset (cw : Rat) vwQ sc := le_max_left _ _
  have hoffQ : ((leftOffset (cw : Rat) vwQ sc : Int) : Rat) ≤
      ((cw : Rat) - vwQ * sc) / 2 := by
    unfold leftOffset
    push_cast
    refine max_le ht0 ?_
    exact_mod_cast Int.floor_le _
  have hxsc : 0 ≤ x * sc := mul_nonneg hx0 hsc0
  have hxsc1 : x * sc ≤ vwQ * sc := mul_le_mul_of_nonneg_right hx1 hsc0
  constructor
  · refine jsRound_nonneg _ ?_
    have : (0 : Rat) ≤ ((leftOffset (cw : Rat) vwQ sc : Int) : Rat) := by
      exact_mod_cast hoff0
    linarith
  · refine jsRound_le_of_le _ _ ?_
    push_cast
    nlinarith [hoffQ, hxsc1, hfit]

/-- C9: for source coordinates inside the recorded viewport, the
transformed display coordinate — with
`effectiveScale = min(containerWidth/viewportWidth,
containerHeight/viewportHeight, requestedScale)` and the centering
offsets — lies within `[0, containerWidth] × [0, containerHeight]`
(container extents are DOM `clientWidth`/`clientHeight`, integers). -/
theorem transformCoordinates_in_bounds (cw ch vw vh : Nat) (s x y : Rat)
    (hvw : 0 < vw) (hvh : 0 < vh) (hs : 0 ≤ s)
    (hx0 : 0 ≤ x) (hx1 : x ≤ (vw : Rat))
    (hy0 : 0 ≤ y) (hy1 : y ≤ (vh : Rat)) :
    0 ≤ (transformCoordinates cw ch vw vh s x y).1 ∧
    (transformCoordinates cw ch vw vh s x y).1 ≤ (cw : Int) ∧
    0 ≤ (transformCoordinates cw ch vw vh s x y).2 ∧
    (transformCoordinates cw ch vw vh s x y).2 ≤ (ch : Int) := by
  have hvwQ : (0 : Rat) < (vw : Rat) := by exact_mod_cast hvw
  have hvhQ : (0 : Rat) < (vh : Rat) := by exact_mod_cast hvh
  have hsc0 : 0 ≤ bestScale cw ch vw vh s :=
    le_min (le_min (div_nonneg (by positivity) hvwQ.le)
      (div_nonneg (by positivity) hvhQ.le)) hs
  have hscw : bestScale cw ch vw vh s ≤ (cw : Rat) / (vw : Rat) :=
    le_trans (min_le_left _ _) (min_le_left _ _)
  have hsch : bestScale cw ch vw vh s ≤ (ch : Rat) / (vh : Rat) :=
    le_trans (min_le_left _ _) (min_le_right _ _)
  have hfitw : (vw : Rat) * bestScale cw ch vw vh s ≤ (cw : Rat) := by
    calc (vw : Rat) * bestScale cw ch vw vh s
        ≤ (vw : Rat) * ((cw : Rat) / (vw : Rat)) :=
          mul_le_mul_of_nonneg_left hscw hvwQ.le
      _ = (cw : Rat) := by field_simp
  have hfith : (vh : Rat) * bestScale cw ch vw vh s ≤ (ch : Rat) := by
    calc (vh : Rat) * bestScale cw ch vw vh s
        ≤ (vh : Rat) * ((ch : Rat) / (vh : Rat)) :=
          mul_le_mul_of_nonneg_left hsch hvhQ.le
      _ = (ch : Rat) := by field_simp
  have hx := transform_axis_bounds cw (vw : Rat) (bestScale cw ch vw vh s)
    x hsc0 hfitw hx0 hx1
  have hy := transform_axis_bounds ch (vh : Rat) (bestScale cw ch vw vh s)
    y hsc0 hfith hy0 hy1
  exact ⟨hx.1, hx.2, hy.1, hy.2⟩

/-- Witness for `transformCoordinates_in_bounds`: an 800×600 container,
a 400×300 recorded viewport, requested scale 1, at the far viewport
corner. -/
theorem transformCoordinates_in_bounds_witness :
    0 < 400 ∧ 0 < 300 ∧ (0 : Rat) ≤ 1 ∧
    (0 ≤ (transformCoordinates 800 600 400 300 1 400 300).1 ∧
      (transformCoordinates 800 600 400 300 1 400 300).1 ≤ (800 : Int) ∧
      0 ≤ (transformCoordinates 800 600 400 300 1 400 300).2 ∧
      (transformCoordinates 800 600 400 300 1 400 300).2 ≤ (600 : Int)) :=
  ⟨by norm_num, by norm_num, by norm_num,
   transformCoordinates_in_bounds 800 600 400 300 1 400 300
     (by norm_num) (by norm_num) (by norm_num) (by norm_num)
     (by norm_num) (by norm_num) (by norm_num)⟩

/-! ### Sanitizer behavior (DomRenderer) -/

/-- C8 counterexample: the sanitized markup is not free of inline
event-handler attributes — an unquoted `onclick=` attribute passes
through `sanitizeHtml` unchanged (the handler regexes only match quoted
values), and a script element without an explicit closing tag also
survives, refuting the claim for these baselines. -/
theorem sanitizeHtml_not_handler_free :
    sanitizeHtml "<div onclick=alert(1)>hi</div>" =
      "<div onclick=alert(1)>hi</div>" ∧
    "onclick=".toList <:+:
      (sanitizeHtml "<div onclick=alert(1)>hi</div>").toList ∧
    sanitizeHtml "<script>alert(1)" = "<script>alert(1)" ∧
    "<script>".toList <:+: (sanitizeHtml "<script>alert(1)").toList := by
  decide

/-- C8 amended: `sanitizeHtml` strips script elements that carry an
explicit closing `</script>` tag (case-insensitively) and inline
event-handler attributes whose values are quoted, double- or
single-quoted; unquoted `on*` attributes (and unterminated script
elements) are not stripped, so handler-freedom holds only for the
quoted forms.  Anchor and form default actions are suppressed
separately, after parsing, by `pointer-events: none` plus
`preventDefault` listeners in `applyDomToReplayContent`. -/
theorem sanitizeHtml_strips_quoted_handlers_and_closed_scripts :
    sanitizeHtml "<div onclick=\"alert(1)\">hi</div>" = "<div >hi</div>" ∧
    sanitizeHtml ("<b onmouseover=" ++ String.mk [sq] ++ "go()" ++
        String.mk [sq] ++ ">t</b>") = "<b >t</b>" ∧
    sanitizeHtml "<p><script>alert(1)</script></p>" = "<p></p>" ∧
    sanitizeHtml "<p><SCRIPT src=\"x\"> a < b </SCRIPT></p>" = "<p></p>" ∧
    sanitizeHtml "<div onclick=alert(1)>hi</div>" =
      "<div onclick=alert(1)>hi</div>" := by
  decide

end HotClone
